import Mathlib

/-!
Verification of the libopenraw Python facade and its two extraction
drivers, as a shallow embedding in Lean 4.

The repository under review contains:
  - `openraw/__init__.py` — a facade over the native `_openraw` decoding
    engine: classes `RawFile`, `Bitmap`, `Thumbnail`, `RawData`, `Error`,
    and the `DATATYPE_TO_MIMETYPE` table;
  - `demo/thumb.py` — the extract-thumbnails driver;
  - `demo/cfa.py` — the extract-raw-data driver.

The native engine itself (`_openraw`, a C binding) is not part of the
visible sources; its contract is modelled from the spec (§6) as a record
of deterministic functions.  Byte buffers are modelled as `String`,
matching Python 2 `str` (a byte string); file writes are modelled as the
sequence of (path, content) pairs the drivers produce; diagnostics are
modelled as the formatted message strings printed to stderr.
-/

/-! ## Enumerations of the native binding

Modelled from the spec: the `_openraw` module exposes enumerations
`Type` (camera-format tags), `or_error` (error codes, `NONE` signalling
success), `or_options` (decode-option bitmask) and `DataType` (pixel
encodings).  Numeric enumerations are modelled as `Nat` constants;
`DataType` is a proper inductive because the drivers branch on it. -/

/-- Modelled from the spec: pixel-encoding tags of the native engine
(`_openraw.DataType`).  The facade's table maps JPEG/TIFF/PNG; the
thumbnail driver fast-paths `OR_DATA_TYPE_PIXMAP_8RGB`. -/
inductive DataType where
  | OR_DATA_TYPE_NONE
  | OR_DATA_TYPE_PIXMAP_8RGB
  | OR_DATA_TYPE_JPEG
  | OR_DATA_TYPE_TIFF
  | OR_DATA_TYPE_PNG
  | OR_DATA_TYPE_RAW
  | OR_DATA_TYPE_COMPRESSED_RAW
  | OR_DATA_TYPE_COMPRESSED_CFA
  | OR_DATA_TYPE_UNKNOWN
deriving DecidableEq, Repr

/-- Modelled from the spec: `_openraw.or_error.OR_ERROR_NONE`, the
success code of the native engine; every other `Nat` is a failure code
surfaced opaquely. -/
def or_error.OR_ERROR_NONE : Nat := 0

/-- Modelled from the spec: `_openraw.or_error.OR_ERROR_CANT_OPEN`, one
of the engine's failure codes. -/
def or_error.OR_ERROR_CANT_OPEN : Nat := 1

/-- Modelled from the spec: `_openraw.or_options.OR_OPTIONS_NONE`, the
empty decode-options bitmask. -/
def or_options.OR_OPTIONS_NONE : Nat := 0

/-- Modelled from the spec: `_openraw.Type.OR_RAWFILE_TYPE_UNKNOWN`, the
camera-format tag meaning "guess the format". -/
def OrType.OR_RAWFILE_TYPE_UNKNOWN : Nat := 0

/-- Modelled from the spec: `_openraw.Type.OR_RAWFILE_TYPE_CR2`. -/
def OrType.OR_RAWFILE_TYPE_CR2 : Nat := 1

/-! ## The native bitmap struct -/

/-- Modelled from the spec: the native engine's bitmap struct
(`_openraw.Bitmap` / `Thumbnail` / `RawData`), with fields data-type
enum, width `x`, height `y`, bits-per-channel `bpc`, byte length
`byteSize`, byte buffer `byteData`, and (populated for raw data only)
`min`, `max` and `compression`.  The engine maintains
`byteData.length = byteSize` (spec §3 invariant, `ORBitmap.WF`). -/
structure ORBitmap where
  dataType : DataType
  x : Nat
  y : Nat
  bpc : Nat
  byteSize : Nat
  byteData : String
  min : Nat
  max : Nat
  compression : Nat
deriving DecidableEq, Repr

/-- The spec's byte-length invariant on a native bitmap:
`byte_data.length == byte_size`. -/
def ORBitmap.WF (b : ORBitmap) : Prop := b.byteData.length = b.byteSize

instance (b : ORBitmap) : Decidable b.WF := by
  unfold ORBitmap.WF; infer_instance

/-- Modelled from the spec: the native setter `RawData.setMin`, which
updates only the reported minimum sample value. -/
def ORBitmap.setMin (b : ORBitmap) (v : Nat) : ORBitmap :=
  ORBitmap.mk b.dataType b.x b.y b.bpc b.byteSize b.byteData v b.max b.compression

/-- Modelled from the spec: the native setter `RawData.setMax`, which
updates only the reported maximum sample value. -/
def ORBitmap.setMax (b : ORBitmap) (v : Nat) : ORBitmap :=
  ORBitmap.mk b.dataType b.x b.y b.bpc b.byteSize b.byteData b.min v b.compression

/-- Modelled from the spec: the native setter `RawData.setCompression`,
which updates only the engine-specific compression-mode code. -/
def ORBitmap.setCompression (b : ORBitmap) (v : Nat) : ORBitmap :=
  ORBitmap.mk b.dataType b.x b.y b.bpc b.byteSize b.byteData b.min b.max v

/-! ## The native raw-file handle and engine -/

/-- Modelled from the spec: an opened native decode session
(`_openraw.RawFile`).  Extraction is deterministic for a fixed handle
and fixed request (spec §4.2), so `getThumbnail` and `getRawData` are
functions from the request to the pair (error code, filled out-bitmap);
on a non-`NONE` error code the out-bitmap is discarded by the facade. -/
structure ORRawFileHandle where
  typeTag : Nat
  orientation : Nat
  listThumbnailSizes : List Nat
  getThumbnail : Nat → Nat × ORBitmap
  getRawData : Nat → Nat × ORBitmap

/-- Modelled from the spec: the native engine's two factory entry points
(`_openraw.RawFile.newRawFile` and `newRawFileFromMemory`), returning a
handle or nothing (Python `None`). -/
structure OREngine where
  newRawFile : String → Nat → Option ORRawFileHandle
  newRawFileFromMemory : String → Nat → Option ORRawFileHandle

/-! ## The facade (`openraw/__init__.py`) -/

/-- `openraw.DATATYPE_TO_MIMETYPE`: the module-level dict mapping the
already-compressed data types to their MIME types; lookup of any other
key raises `KeyError`, modelled as `none`. -/
def DATATYPE_TO_MIMETYPE : DataType → Option String
  | DataType.OR_DATA_TYPE_JPEG => some "image/jpeg"
  | DataType.OR_DATA_TYPE_TIFF => some "image/tiff"
  | DataType.OR_DATA_TYPE_PNG => some "image/png"
  | _ => none

/-- `openraw.Error`: the facade's exception class; `or_error_code` is
`None` when raised by the factories and the engine's code when raised by
an extraction operation. -/
structure openraw.Error where
  or_error_code : Option Nat
deriving DecidableEq, Repr

/-- `openraw.Bitmap`: wraps a native bitmap struct. -/
structure openraw.Bitmap where
  _bitmap : ORBitmap
deriving DecidableEq, Repr

/-- `openraw.Thumbnail`: `class Thumbnail(Bitmap): pass`. -/
abbrev openraw.Thumbnail := openraw.Bitmap

/-- `openraw.RawData`: wraps a native raw-data struct (same shape). -/
abbrev openraw.RawData := openraw.Bitmap

/-- `Bitmap.get_data_type`: returns `self._bitmap.dataType()`. -/
def openraw.Bitmap.get_data_type (b : openraw.Bitmap) : DataType :=
  b._bitmap.dataType

/-- `Bitmap.get_size`: returns `self._bitmap.size()`, the byte length
reported by the native struct. -/
def openraw.Bitmap.get_size (b : openraw.Bitmap) : Nat :=
  b._bitmap.byteSize

/-- `Bitmap.get_data`: returns `self._bitmap.data()`, the byte buffer. -/
def openraw.Bitmap.get_data (b : openraw.Bitmap) : String :=
  b._bitmap.byteData

/-- `Bitmap.get_width`: returns `self._bitmap.x()`. -/
def openraw.Bitmap.get_width (b : openraw.Bitmap) : Nat :=
  b._bitmap.x

/-- `Bitmap.get_height`: returns `self._bitmap.y()`. -/
def openraw.Bitmap.get_height (b : openraw.Bitmap) : Nat :=
  b._bitmap.y

/-- `Bitmap.get_bits_per_channel`: returns `self._bitmap.bpc()`. -/
def openraw.Bitmap.get_bits_per_channel (b : openraw.Bitmap) : Nat :=
  b._bitmap.bpc

/-- `openraw.RawFile`: wraps an opened native handle.  The constructor
is private; instances are created by the factory methods below. -/
structure openraw.RawFile where
  _rawfile : ORRawFileHandle

/-- `RawFile.from_path`: asks the engine for a handle; raises `Error()`
(code `None`) when the engine returns `None`, otherwise wraps the
handle.  Exceptions are modelled with `Except`. -/
def openraw.RawFile.from_path (engine : OREngine) (path : String)
    (raw_type_hint : Nat) : Except openraw.Error openraw.RawFile :=
  match engine.newRawFile path raw_type_hint with
  | none => Except.error (openraw.Error.mk none)
  | some rawfile => Except.ok (openraw.RawFile.mk rawfile)

/-- `RawFile.from_string`: same contract as `from_path`, from an
in-memory buffer. -/
def openraw.RawFile.from_string (engine : OREngine) (data : String)
    (raw_type_hint : Nat) : Except openraw.Error openraw.RawFile :=
  match engine.newRawFileFromMemory data raw_type_hint with
  | none => Except.error (openraw.Error.mk none)
  | some rawfile => Except.ok (openraw.RawFile.mk rawfile)

/-- `RawFile.get_thumbnail_widths`: returns
`self._rawfile.listThumbnailSizes()`. -/
def openraw.RawFile.get_thumbnail_widths (rf : openraw.RawFile) : List Nat :=
  rf._rawfile.listThumbnailSizes

/-- `RawFile.get_thumbnail`: passes a fresh out-bitmap to the engine's
`getThumbnail(requested_width, thumbnail)`; raises `Error(error)` when
the returned code differs from `OR_ERROR_NONE`, else wraps the filled
bitmap. -/
def openraw.RawFile.get_thumbnail (rf : openraw.RawFile)
    (requested_width : Nat) : Except openraw.Error openraw.Thumbnail :=
  let r := rf._rawfile.getThumbnail requested_width
  if r.1 ≠ or_error.OR_ERROR_NONE then Except.error (openraw.Error.mk (some r.1))
  else Except.ok (openraw.Bitmap.mk r.2)

/-- `RawFile.get_raw_data`: same pattern as `get_thumbnail`, via the
engine's `getRawData(rawdata, options)`. -/
def openraw.RawFile.get_raw_data (rf : openraw.RawFile)
    (options : Nat) : Except openraw.Error openraw.RawData :=
  let r := rf._rawfile.getRawData options
  if r.1 ≠ or_error.OR_ERROR_NONE then Except.error (openraw.Error.mk (some r.1))
  else Except.ok (openraw.Bitmap.mk r.2)

/-- The list comprehension of `RawFile.get_thumbnails`, evaluated left
to right with the first raised exception propagating (Python
semantics). -/
def openraw.RawFile.get_thumbnails_go (rf : openraw.RawFile) :
    List Nat → Except openraw.Error (List openraw.Thumbnail)
  | [] => Except.ok []
  | width :: rest =>
    match rf.get_thumbnail width with
    | Except.error e => Except.error e
    | Except.ok t =>
      match openraw.RawFile.get_thumbnails_go rf rest with
      | Except.error e => Except.error e
      | Except.ok ts => Except.ok (t :: ts)

/-- `RawFile.get_thumbnails`:
`[self.get_thumbnail(width) for width in self.get_thumbnail_widths()]`. -/
def openraw.RawFile.get_thumbnails (rf : openraw.RawFile) :
    Except openraw.Error (List openraw.Thumbnail) :=
  openraw.RawFile.get_thumbnails_go rf rf.get_thumbnail_widths

/-! ## Path glue (Python `os.path`, POSIX flavour) -/

/-- Splits a character list on a separator character; the groups between
separators, like Python `str.split` with a single-character separator. -/
def splitOnChar (c : Char) : List Char → List (List Char)
  | [] => [[]]
  | a :: rest =>
    let r := splitOnChar c rest
    if a = c then [] :: r
    else
      match r with
      | [] => [[a]]
      | g :: gs => (a :: g) :: gs

/-- Model of Python `os.path.basename` (POSIX): the part of the path
after the last directory separator (`/`, character code 47). -/
def basename (p : String) : String :=
  String.mk ((splitOnChar (Char.ofNat 47) p.toList).getLastD p.toList)

/-- Python `str.startswith` for a one-string prefix. -/
def str_starts_with (s pre : String) : Bool :=
  pre.toList.isPrefixOf s.toList

/-- Python `str.endswith` for a one-string suffix. -/
def str_ends_with (s suf : String) : Bool :=
  suf.toList.reverse.isPrefixOf s.toList.reverse

/-- Index of the last `.` (character code 46) in a character list, if
any — the `rfind` step of Python `os.path.splitext`. -/
def lastDotIndex (cs : List Char) : Option Nat :=
  ((List.range cs.length).filter (fun i => cs.getD i (Char.ofNat 0) = Char.ofNat 46)).getLast?

/-- Model of the root part of Python `os.path.splitext` for a name
containing no directory separator (the drivers apply it to the result
of `basename`): split at the last dot, unless every character before
that dot is itself a dot (so `.bashrc` keeps its name whole). -/
def splitext_root (name : String) : String :=
  let cs := name.toList
  match lastDotIndex cs with
  | none => name
  | some i =>
    if (cs.take i).all (fun c => c = Char.ofNat 46) then name
    else String.mk (cs.take i)

/-- Model of Python `os.path.join` (POSIX) on two components.
`os.path.abspath`, which only prepends the process working directory
and normalizes, is environment glue and modelled as the identity. -/
def path_join (a b : String) : String :=
  if str_starts_with b "/" then b
  else if a = "" then a ++ b
  else if str_ends_with a "/" then a ++ b
  else a ++ "/" ++ b

/-- Python `"%s" % x` applied to an optional string: `None` renders as
the four characters `None`. -/
def pyStr : Option String → String
  | none => "None"
  | some s => s

/-! ## The extract-raw-data driver (`demo/cfa.py`) -/

/-- `cfa.extract_raw_image`: opens the raw file, extracts the full
sensor plane, and writes `<destination>/<stem>.pgm` whose bytes are the
successive `f.write` calls: `"P5\n"`, `"%d %d\n" % (width, height)`,
`"%d\n" % (2 ** bits_per_channel - 1)`, then the data verbatim.  The
result is the (path, content) pair written; exceptions propagate. -/
def extract_raw_image (engine : OREngine)
    (rawfile_path destination_path : String) :
    Except openraw.Error (String × String) :=
  match openraw.RawFile.from_path engine rawfile_path OrType.OR_RAWFILE_TYPE_UNKNOWN with
  | Except.error e => Except.error e
  | Except.ok raw_file =>
    match raw_file.get_raw_data or_options.OR_OPTIONS_NONE with
    | Except.error e => Except.error e
    | Except.ok raw_data =>
      let extract_base_name := splitext_root (basename rawfile_path)
      let image_path := path_join destination_path (extract_base_name ++ ".pgm")
      let content := "P5\n"
      let content := content ++ (toString raw_data.get_width ++ " " ++ toString raw_data.get_height ++ "\n")
      let colors_per_channel := 2 ^ raw_data.get_bits_per_channel - 1
      let content := content ++ (toString colors_per_channel ++ "\n")
      let content := content ++ raw_data.get_data
      Except.ok (image_path, content)

/-! ## The extract-thumbnails driver (`demo/thumb.py`) -/

/-- `thumb.write_rgb8pixmap_to_stream`: the four `stream.write` calls
`"P6\n"`, `"%d %d\n" % (width, height)`, `"255\n"`, then the data. -/
def write_rgb8pixmap_to_stream (bitmap : openraw.Bitmap) (stream : String) : String :=
  let stream := stream ++ "P6\n"
  let stream := stream ++ (toString bitmap.get_width ++ " " ++ toString bitmap.get_height ++ "\n")
  let stream := stream ++ "255\n"
  stream ++ bitmap.get_data

/-- Modelled from the spec: the printed name of a native `DataType`
enumeration value, as interpolated by `"%s"` in the driver's
diagnostic. -/
def dataTypeName : DataType → String
  | DataType.OR_DATA_TYPE_NONE => "OR_DATA_TYPE_NONE"
  | DataType.OR_DATA_TYPE_PIXMAP_8RGB => "OR_DATA_TYPE_PIXMAP_8RGB"
  | DataType.OR_DATA_TYPE_JPEG => "OR_DATA_TYPE_JPEG"
  | DataType.OR_DATA_TYPE_TIFF => "OR_DATA_TYPE_TIFF"
  | DataType.OR_DATA_TYPE_PNG => "OR_DATA_TYPE_PNG"
  | DataType.OR_DATA_TYPE_RAW => "OR_DATA_TYPE_RAW"
  | DataType.OR_DATA_TYPE_COMPRESSED_RAW => "OR_DATA_TYPE_COMPRESSED_RAW"
  | DataType.OR_DATA_TYPE_COMPRESSED_CFA => "OR_DATA_TYPE_COMPRESSED_CFA"
  | DataType.OR_DATA_TYPE_UNKNOWN => "OR_DATA_TYPE_UNKNOWN"

/-- Python `"%r"` applied to a path string (quoting only; escaping of
special characters inside the path is not needed by the drivers). -/
def pyRepr (s : String) : String := "\x27" ++ s ++ "\x27"

/-- The stderr diagnostic of `thumb.extract_thumbnails` for a thumbnail
whose data type has no MIME mapping:
`'Cannot extract thumbnail of type "%s" from %r (%dx%d) '`. -/
def cannot_extract_msg (dt : DataType) (rawfile_path : String) (w h : Nat) : String :=
  "Cannot extract thumbnail of type \x22" ++ dataTypeName dt ++ "\x22 from "
    ++ pyRepr rawfile_path ++ " (" ++ toString w ++ "x" ++ toString h ++ ") "

/-- One observable step of the extract-thumbnails loop: either a file
write (path and content) or a stderr diagnostic followed by `continue`. -/
inductive ThumbEvent where
  | written (path : String) (content : String)
  | diagnostic (msg : String)
deriving DecidableEq, Repr

/-- The body of the `for thumbnail in raw_file.get_thumbnails()` loop of
`thumb.extract_thumbnails`: the packed-RGB fast path serializes through
`write_rgb8pixmap_to_stream` with extension `.ppm`; otherwise the MIME
table is consulted (`KeyError` → diagnostic and `continue`), the
extension comes from `mimetypes.guess_extension(mime_type, strict=False)`
(passed in as `guess_ext`, a system lookup external to the repository),
and the thumbnail bytes pass through verbatim.  The output file name is
`'%s-%dx%d%s' % (base, width, height, extension)` joined to the
destination directory. -/
def process_thumbnail (guess_ext : String → Option String)
    (rawfile_path destination_path thumbnail_base_name : String)
    (thumbnail : openraw.Thumbnail) : ThumbEvent :=
  if thumbnail.get_data_type = DataType.OR_DATA_TYPE_PIXMAP_8RGB then
    let data := write_rgb8pixmap_to_stream thumbnail ""
    let extension := ".ppm"
    let thumbnail_name := thumbnail_base_name ++ "-" ++ toString thumbnail.get_width
      ++ "x" ++ toString thumbnail.get_height ++ extension
    ThumbEvent.written (path_join destination_path thumbnail_name) data
  else
    match DATATYPE_TO_MIMETYPE thumbnail.get_data_type with
    | none =>
      ThumbEvent.diagnostic (cannot_extract_msg thumbnail.get_data_type
        rawfile_path thumbnail.get_width thumbnail.get_height)
    | some mime_type =>
      let extension := guess_ext mime_type
      let data := thumbnail.get_data
      let thumbnail_name := thumbnail_base_name ++ "-" ++ toString thumbnail.get_width
        ++ "x" ++ toString thumbnail.get_height ++ pyStr extension
      ThumbEvent.written (path_join destination_path thumbnail_name) data

/-- `thumb.extract_thumbnails`: opens the raw file, materializes
`get_thumbnails()` (an exception there propagates), then runs the loop
body once per thumbnail in order, producing the sequence of writes and
diagnostics. -/
def extract_thumbnails (engine : OREngine) (guess_ext : String → Option String)
    (rawfile_path destination_path : String) :
    Except openraw.Error (List ThumbEvent) :=
  match openraw.RawFile.from_path engine rawfile_path OrType.OR_RAWFILE_TYPE_UNKNOWN with
  | Except.error e => Except.error e
  | Except.ok raw_file =>
    let thumbnail_base_name := splitext_root (basename rawfile_path)
    match raw_file.get_thumbnails with
    | Except.error e => Except.error e
    | Except.ok thumbnails =>
      Except.ok (thumbnails.map
        (process_thumbnail guess_ext rawfile_path destination_path thumbnail_base_name))

/-- The event sequence a successful extract-thumbnails run produces for
a given list of enumerated thumbnails: the loop body applied to each
thumbnail in order, with the base name derived from the input path. -/
def thumb_events (guess_ext : String → Option String)
    (rawfile_path destination_path : String)
    (ts : List openraw.Thumbnail) : List ThumbEvent :=
  ts.map (process_thumbnail guess_ext rawfile_path destination_path
    (splitext_root (basename rawfile_path)))

/-! ## A concrete engine instance, for evaluating the development

These mirror the duck.cr2 fixture of the binding's test-suite: three
thumbnails of widths 1936, 160 and 486, and a 3944x2622 14-bit sensor
plane (byte buffers shortened to small stand-ins). -/

def sampleJpegThumb : ORBitmap :=
  ORBitmap.mk DataType.OR_DATA_TYPE_JPEG 160 120 8 4 "abcd" 0 0 0

def sampleRgbThumb : ORBitmap :=
  ORBitmap.mk DataType.OR_DATA_TYPE_PIXMAP_8RGB 2 1 8 6 "RGBrgb" 0 0 0

def sampleCfaThumb : ORBitmap :=
  ORBitmap.mk DataType.OR_DATA_TYPE_COMPRESSED_CFA 1936 1288 8 2 "qz" 0 0 0

def sampleRawBitmap : ORBitmap :=
  ORBitmap.mk DataType.OR_DATA_TYPE_RAW 3944 2622 14 2 "xy" 0 16383 0

def emptyBitmap : ORBitmap :=
  ORBitmap.mk DataType.OR_DATA_TYPE_NONE 0 0 0 0 "" 0 0 0

def sampleHandle : ORRawFileHandle :=
  ORRawFileHandle.mk 1 1 [1936, 160, 486]
    (fun w =>
      if w = 160 then (0, sampleJpegThumb)
      else if w = 486 then (0, sampleRgbThumb)
      else if w = 1936 then (0, sampleCfaThumb)
      else (5, emptyBitmap))
    (fun _ => (0, sampleRawBitmap))

def sampleEngine : OREngine :=
  OREngine.mk (fun _ _ => some sampleHandle) (fun _ _ => some sampleHandle)

def sampleRF : openraw.RawFile := openraw.RawFile.mk sampleHandle

def failEngine : OREngine :=
  OREngine.mk (fun _ _ => none) (fun _ _ => none)

/-- A concrete stand-in for the system `mimetypes.guess_extension`
lookup with one canonical extension per MIME type. -/
def sampleGuessExt : String → Option String :=
  fun m =>
    if m = "image/jpeg" then some ".jpg"
    else if m = "image/tiff" then some ".tif"
    else if m = "image/png" then some ".png"
    else none

/-- A system MIME lookup that knows no extensions. -/
def noGuessExt : String → Option String := fun _ => none

deriving instance DecidableEq for Except

/-- C4: for every valid RawFile handle and every requested width (resp.
options bitmask), `get_thumbnail` (resp. `get_raw_data`) raises an
`Error` carrying exactly the engine's error code if and only if the
engine's extraction call returns a code different from `OR_ERROR_NONE`;
when the code equals `OR_ERROR_NONE` it returns a `Bitmap` wrapping the
engine's output and raises nothing. -/
theorem facade_extraction_error_iff_engine_code (rf : openraw.RawFile) (w opts : Nat) :
    ((rf._rawfile.getThumbnail w).1 ≠ or_error.OR_ERROR_NONE →
      rf.get_thumbnail w
        = Except.error (openraw.Error.mk (some (rf._rawfile.getThumbnail w).1)))
    ∧ ((rf._rawfile.getThumbnail w).1 = or_error.OR_ERROR_NONE →
      rf.get_thumbnail w = Except.ok (openraw.Bitmap.mk (rf._rawfile.getThumbnail w).2))
    ∧ (∀ e, rf.get_thumbnail w = Except.error e →
      e.or_error_code = some (rf._rawfile.getThumbnail w).1
        ∧ (rf._rawfile.getThumbnail w).1 ≠ or_error.OR_ERROR_NONE)
    ∧ ((rf._rawfile.getRawData opts).1 ≠ or_error.OR_ERROR_NONE →
      rf.get_raw_data opts
        = Except.error (openraw.Error.mk (some (rf._rawfile.getRawData opts).1)))
    ∧ ((rf._rawfile.getRawData opts).1 = or_error.OR_ERROR_NONE →
      rf.get_raw_data opts = Except.ok (openraw.Bitmap.mk (rf._rawfile.getRawData opts).2))
    ∧ (∀ e, rf.get_raw_data opts = Except.error e →
      e.or_error_code = some (rf._rawfile.getRawData opts).1
        ∧ (rf._rawfile.getRawData opts).1 ≠ or_error.OR_ERROR_NONE) := by
  refine ⟨fun h => ?_, fun h => ?_, fun e he => ?_, fun h => ?_, fun h => ?_, fun e he => ?_⟩
  · simp [openraw.RawFile.get_thumbnail, h]
  · simp [openraw.RawFile.get_thumbnail, h]
  · by_cases h : (rf._rawfile.getThumbnail w).1 = or_error.OR_ERROR_NONE
    · simp [openraw.RawFile.get_thumbnail, h] at he
    · simp [openraw.RawFile.get_thumbnail, h] at he
      exact ⟨by simp [← he], h⟩
  · simp [openraw.RawFile.get_raw_data, h]
  · simp [openraw.RawFile.get_raw_data, h]
  · by_cases h : (rf._rawfile.getRawData opts).1 = or_error.OR_ERROR_NONE
    · simp [openraw.RawFile.get_raw_data, h] at he
    · simp [openraw.RawFile.get_raw_data, h] at he
      exact ⟨by simp [← he], h⟩

theorem facade_extraction_error_iff_engine_code_witness :
    sampleRF.get_thumbnail 100 = Except.error (openraw.Error.mk (some 5)) :=
  (facade_extraction_error_iff_engine_code sampleRF 100 0).1 (by decide)

/-- C5: the factory operations `from_path` and `from_string` raise an
`Error` exactly when the engine returns no handle; when the engine
returns a handle they return a `RawFile` wrapping it, and every
successful result wraps the engine's handle (no null or
partially-initialized `RawFile` reaches the caller). -/
theorem factories_raise_iff_engine_null (engine : OREngine)
    (path data : String) (hint : Nat) :
    (engine.newRawFile path hint = none →
      openraw.RawFile.from_path engine path hint
        = Except.error (openraw.Error.mk none))
    ∧ (∀ h, engine.newRawFile path hint = some h →
      openraw.RawFile.from_path engine path hint
        = Except.ok (openraw.RawFile.mk h))
    ∧ (∀ r, openraw.RawFile.from_path engine path hint = Except.ok r →
      engine.newRawFile path hint = some r._rawfile)
    ∧ (engine.newRawFileFromMemory data hint = none →
      openraw.RawFile.from_string engine data hint
        = Except.error (openraw.Error.mk none))
    ∧ (∀ h, engine.newRawFileFromMemory data hint = some h →
      openraw.RawFile.from_string engine data hint
        = Except.ok (openraw.RawFile.mk h))
    ∧ (∀ r, openraw.RawFile.from_string engine data hint = Except.ok r →
      engine.newRawFileFromMemory data hint = some r._rawfile) := by
  refine ⟨fun h => ?_, fun rfh h => ?_, fun r hr => ?_,
    fun h => ?_, fun rfh h => ?_, fun r hr => ?_⟩
  · simp [openraw.RawFile.from_path, h]
  · simp [openraw.RawFile.from_path, h]
  · unfold openraw.RawFile.from_path at hr
    cases hcase : engine.newRawFile path hint with
    | none => rw [hcase] at hr; cases hr
    | some v => rw [hcase] at hr; cases hr; rfl
  · simp [openraw.RawFile.from_string, h]
  · simp [openraw.RawFile.from_string, h]
  · unfold openraw.RawFile.from_string at hr
    cases hcase : engine.newRawFileFromMemory data hint with
    | none => rw [hcase] at hr; cases hr
    | some v => rw [hcase] at hr; cases hr; rfl

theorem factories_raise_iff_engine_null_witness :
    openraw.RawFile.from_path failEngine "nonexistent.cr2" OrType.OR_RAWFILE_TYPE_UNKNOWN
      = Except.error (openraw.Error.mk none) :=
  (factories_raise_iff_engine_null failEngine "nonexistent.cr2" ""
    OrType.OR_RAWFILE_TYPE_UNKNOWN).1 rfl

/-- C8: for every well-formed native bitmap, the byte buffer returned
by the facade's `get_data` has length equal to the value returned by
`get_size`, and mutating an unrelated field (`setCompression`, `setMin`,
`setMax`) leaves the byte buffer and its reported size unchanged, so
the invariant still holds afterwards. -/
theorem bitmap_byte_length_invariant (b : ORBitmap) (hwf : b.WF) (c mn mx : Nat) :
    (openraw.Bitmap.mk b).get_data.length = (openraw.Bitmap.mk b).get_size
    ∧ (b.setCompression c).byteData = b.byteData
    ∧ (b.setMin mn).byteData = b.byteData
    ∧ (b.setMax mx).byteData = b.byteData
    ∧ (b.setCompression c).byteSize = b.byteSize
    ∧ (b.setMin mn).byteSize = b.byteSize
    ∧ (b.setMax mx).byteSize = b.byteSize
    ∧ (openraw.Bitmap.mk (b.setCompression c)).get_data.length
        = (openraw.Bitmap.mk (b.setCompression c)).get_size
    ∧ (openraw.Bitmap.mk (b.setMin mn)).get_data.length
        = (openraw.Bitmap.mk (b.setMin mn)).get_size
    ∧ (openraw.Bitmap.mk (b.setMax mx)).get_data.length
        = (openraw.Bitmap.mk (b.setMax mx)).get_size :=
  ⟨hwf, rfl, rfl, rfl, rfl, rfl, rfl, hwf, hwf, hwf⟩

theorem bitmap_byte_length_invariant_witness :
    (openraw.Bitmap.mk sampleRawBitmap).get_data.length
      = (openraw.Bitmap.mk sampleRawBitmap).get_size :=
  (bitmap_byte_length_invariant sampleRawBitmap (by decide) 5 1 2).1

/-- C9: for a fixed `RawFile` and a fixed requested width, two
successful calls of `get_thumbnail` return Bitmaps with bitwise
identical byte data — the pipeline from request to returned bytes is
deterministic. -/
theorem get_thumbnail_deterministic (rf : openraw.RawFile) (w : Nat)
    (t1 t2 : openraw.Thumbnail)
    (h1 : rf.get_thumbnail w = Except.ok t1)
    (h2 : rf.get_thumbnail w = Except.ok t2) :
    t1.get_data = t2.get_data := by
  rw [h1] at h2
  injection h2 with h
  rw [h]

theorem get_thumbnail_deterministic_witness :
    (openraw.Bitmap.mk sampleJpegThumb).get_data
      = (openraw.Bitmap.mk sampleJpegThumb).get_data :=
  get_thumbnail_deterministic sampleRF 160
    (openraw.Bitmap.mk sampleJpegThumb) (openraw.Bitmap.mk sampleJpegThumb) rfl rfl

/-- Index-wise description of the thumbnail-enumeration loop: a
successful run produces one thumbnail per width, in order, each the
result of `get_thumbnail` at that width. -/
theorem get_thumbnails_go_spec (rf : openraw.RawFile) (l : List Nat)
    (ts : List openraw.Thumbnail)
    (h : openraw.RawFile.get_thumbnails_go rf l = Except.ok ts) :
    ts.length = l.length
    ∧ ∀ (i : Nat) (w : Nat), l[i]? = some w →
        ∃ t, ts[i]? = some t ∧ rf.get_thumbnail w = Except.ok t := by
  induction l generalizing ts with
  | nil =>
    simp only [openraw.RawFile.get_thumbnails_go] at h
    cases h
    simp
  | cons width rest ih =>
    unfold openraw.RawFile.get_thumbnails_go at h
    cases hw : rf.get_thumbnail width with
    | error e => rw [hw] at h; cases h
    | ok t =>
      rw [hw] at h
      cases hr : openraw.RawFile.get_thumbnails_go rf rest with
      | error e => rw [hr] at h; cases h
      | ok ts2 =>
        rw [hr] at h
        cases h
        obtain ⟨hlen, hidx⟩ := ih ts2 hr
        refine ⟨by simp [hlen], ?_⟩
        intro i w hiw
        cases i with
        | zero =>
          simp only [List.getElem?_cons_zero, Option.some.injEq] at hiw
          subst hiw
          exact ⟨t, by simp, hw⟩
        | succ n =>
          simp only [List.getElem?_cons_succ] at hiw ⊢
          exact hidx n w hiw

/-- C7: for every valid `RawFile`, a successful enumeration of all
thumbnails yields a list of the same length as `thumbnail_widths`, whose
i-th element is the selector's result for the i-th width, in the order
the engine reports the widths; duplicate widths are processed at their
own positions (no deduplication). -/
theorem get_thumbnails_one_per_width (rf : openraw.RawFile)
    (ts : List openraw.Thumbnail)
    (h : rf.get_thumbnails = Except.ok ts) :
    ts.length = rf.get_thumbnail_widths.length
    ∧ ∀ (i : Nat) (w : Nat), rf.get_thumbnail_widths[i]? = some w →
        ∃ t, ts[i]? = some t ∧ rf.get_thumbnail w = Except.ok t :=
  get_thumbnails_go_spec rf rf.get_thumbnail_widths ts h

theorem get_thumbnails_one_per_width_witness :
    ([openraw.Bitmap.mk sampleCfaThumb, openraw.Bitmap.mk sampleJpegThumb,
      openraw.Bitmap.mk sampleRgbThumb] : List openraw.Thumbnail).length
      = sampleRF.get_thumbnail_widths.length :=
  (get_thumbnails_one_per_width sampleRF
    [openraw.Bitmap.mk sampleCfaThumb, openraw.Bitmap.mk sampleJpegThumb,
      openraw.Bitmap.mk sampleRgbThumb] rfl).1

/-- C1: for every successfully extracted raw-data bitmap, the
extract-raw-data driver writes to `<destination>/<stem>.pgm` exactly
the bytes `"P5\n"`, then `"<width> <height>\n"`, then `"<2^bpc - 1>\n"`,
then the byte buffer verbatim; and the output is unchanged when the
bitmap's reported `max` field is replaced by any value — the declared
maxval is computed from `bits_per_channel`, never taken from `max`. -/
theorem extract_raw_image_writes_exact_pgm (engine : OREngine)
    (rawfile_path destination_path : String)
    (h : ORRawFileHandle) (rd : ORBitmap)
    (hopen : engine.newRawFile rawfile_path OrType.OR_RAWFILE_TYPE_UNKNOWN = some h)
    (hraw : h.getRawData or_options.OR_OPTIONS_NONE = (or_error.OR_ERROR_NONE, rd)) :
    extract_raw_image engine rawfile_path destination_path
      = Except.ok
          (path_join destination_path (splitext_root (basename rawfile_path) ++ ".pgm"),
           "P5\n" ++ (toString rd.x ++ " " ++ toString rd.y ++ "\n")
             ++ (toString (2 ^ rd.bpc - 1) ++ "\n") ++ rd.byteData)
    ∧ ∀ (m : Nat) (engine2 : OREngine) (h2 : ORRawFileHandle),
        engine2.newRawFile rawfile_path OrType.OR_RAWFILE_TYPE_UNKNOWN = some h2 →
        h2.getRawData or_options.OR_OPTIONS_NONE
          = (or_error.OR_ERROR_NONE, rd.setMax m) →
        extract_raw_image engine2 rawfile_path destination_path
          = extract_raw_image engine rawfile_path destination_path := by
  constructor
  · simp [extract_raw_image, openraw.RawFile.from_path, hopen,
      openraw.RawFile.get_raw_data, hraw, or_error.OR_ERROR_NONE,
      openraw.Bitmap.get_width, openraw.Bitmap.get_height,
      openraw.Bitmap.get_bits_per_channel, openraw.Bitmap.get_data]
  · intro m engine2 h2 hopen2 hraw2
    simp [extract_raw_image, openraw.RawFile.from_path, hopen, hopen2,
      openraw.RawFile.get_raw_data, hraw, hraw2, or_error.OR_ERROR_NONE,
      ORBitmap.setMax, openraw.Bitmap.get_width, openraw.Bitmap.get_height,
      openraw.Bitmap.get_bits_per_channel, openraw.Bitmap.get_data]

theorem extract_raw_image_writes_exact_pgm_witness :
    extract_raw_image sampleEngine "images/duck.cr2" "out"
      = Except.ok ("out/duck.pgm", "P5\n3944 2622\n16383\nxy") := by
  have h1 := (extract_raw_image_writes_exact_pgm sampleEngine "images/duck.cr2" "out"
    sampleHandle sampleRawBitmap rfl rfl).1
  rw [h1]
  decide

/-- A successful extract-thumbnails run maps the loop body over the
enumerated thumbnails in order. -/
theorem extract_thumbnails_run (engine : OREngine) (guess_ext : String → Option String)
    (rawfile_path destination_path : String) (h : ORRawFileHandle)
    (ts : List openraw.Thumbnail)
    (hopen : engine.newRawFile rawfile_path OrType.OR_RAWFILE_TYPE_UNKNOWN = some h)
    (hths : (openraw.RawFile.mk h).get_thumbnails = Except.ok ts) :
    extract_thumbnails engine guess_ext rawfile_path destination_path
      = Except.ok (thumb_events guess_ext rawfile_path destination_path ts) := by
  simp [extract_thumbnails, thumb_events, openraw.RawFile.from_path, hopen, hths]

/-- C2: for every thumbnail whose data type is the packed-8bit-RGB
pixmap, with width w, height h and byte buffer d, the extract-thumbnails
driver writes a file named `<basename>-<w>x<h>.ppm` whose content is
exactly `"P6\n"`, then `"<w> <h>\n"`, then `"255\n"`, then d verbatim —
no padding and no byte-order conversion. -/
theorem extract_thumbnails_writes_exact_ppm (engine : OREngine)
    (guess_ext : String → Option String) (rawfile_path destination_path : String)
    (h : ORRawFileHandle) (ts : List openraw.Thumbnail) (i : Nat)
    (t : openraw.Thumbnail)
    (hopen : engine.newRawFile rawfile_path OrType.OR_RAWFILE_TYPE_UNKNOWN = some h)
    (hths : (openraw.RawFile.mk h).get_thumbnails = Except.ok ts)
    (hit : ts[i]? = some t)
    (hrgb : t.get_data_type = DataType.OR_DATA_TYPE_PIXMAP_8RGB) :
    extract_thumbnails engine guess_ext rawfile_path destination_path
      = Except.ok (thumb_events guess_ext rawfile_path destination_path ts)
    ∧ (thumb_events guess_ext rawfile_path destination_path ts).length = ts.length
    ∧ (thumb_events guess_ext rawfile_path destination_path ts)[i]?
        = some (ThumbEvent.written
            (path_join destination_path
              (splitext_root (basename rawfile_path) ++ "-" ++ toString t.get_width
                ++ "x" ++ toString t.get_height ++ ".ppm"))
            ("P6\n" ++ (toString t.get_width ++ " " ++ toString t.get_height ++ "\n")
              ++ "255\n" ++ t.get_data)) := by
  refine ⟨extract_thumbnails_run engine guess_ext rawfile_path destination_path h ts hopen hths,
    by simp [thumb_events], ?_⟩
  unfold thumb_events
  rw [List.getElem?_map, hit]
  simp [process_thumbnail, hrgb, write_rgb8pixmap_to_stream]

theorem extract_thumbnails_writes_exact_ppm_witness :
    (thumb_events sampleGuessExt "duck.cr2" "out"
      [openraw.Bitmap.mk sampleCfaThumb, openraw.Bitmap.mk sampleJpegThumb,
        openraw.Bitmap.mk sampleRgbThumb])[2]?
      = some (ThumbEvent.written "out/duck-2x1.ppm" "P6\n2 1\n255\nRGBrgb") := by
  have h := (extract_thumbnails_writes_exact_ppm sampleEngine sampleGuessExt "duck.cr2" "out"
    sampleHandle
    [openraw.Bitmap.mk sampleCfaThumb, openraw.Bitmap.mk sampleJpegThumb,
      openraw.Bitmap.mk sampleRgbThumb]
    2 (openraw.Bitmap.mk sampleRgbThumb) rfl rfl (by decide) (by decide)).2.2
  rw [h]
  decide

/-- C3: a thumbnail whose data type is neither packed-8bit-RGB nor in
the MIME-type lookup table is recovered locally: its loop iteration
emits exactly one diagnostic naming the input file, dimensions and
encoding, writes no file for it, and every other thumbnail of the same
input is still processed by the ordinary loop body. -/
theorem extract_thumbnails_unsupported_skip (engine : OREngine)
    (guess_ext : String → Option String) (rawfile_path destination_path : String)
    (h : ORRawFileHandle) (ts : List openraw.Thumbnail) (i : Nat)
    (t : openraw.Thumbnail)
    (hopen : engine.newRawFile rawfile_path OrType.OR_RAWFILE_TYPE_UNKNOWN = some h)
    (hths : (openraw.RawFile.mk h).get_thumbnails = Except.ok ts)
    (hit : ts[i]? = some t)
    (hnot8 : t.get_data_type ≠ DataType.OR_DATA_TYPE_PIXMAP_8RGB)
    (hnomime : DATATYPE_TO_MIMETYPE t.get_data_type = none) :
    extract_thumbnails engine guess_ext rawfile_path destination_path
      = Except.ok (thumb_events guess_ext rawfile_path destination_path ts)
    ∧ (thumb_events guess_ext rawfile_path destination_path ts).length = ts.length
    ∧ (thumb_events guess_ext rawfile_path destination_path ts)[i]?
        = some (ThumbEvent.diagnostic
            (cannot_extract_msg t.get_data_type rawfile_path t.get_width t.get_height))
    ∧ (∀ p c, (thumb_events guess_ext rawfile_path destination_path ts)[i]?
        ≠ some (ThumbEvent.written p c))
    ∧ ∀ (j : Nat) (u : openraw.Thumbnail), j ≠ i → ts[j]? = some u →
        (thumb_events guess_ext rawfile_path destination_path ts)[j]?
          = some (process_thumbnail guess_ext rawfile_path destination_path
              (splitext_root (basename rawfile_path)) u) := by
  refine ⟨extract_thumbnails_run engine guess_ext rawfile_path destination_path h ts hopen hths,
    by simp [thumb_events], ?_, ?_, ?_⟩
  · unfold thumb_events
    rw [List.getElem?_map, hit]
    simp [process_thumbnail, hnot8, hnomime]
  · intro p c
    unfold thumb_events
    rw [List.getElem?_map, hit]
    simp [process_thumbnail, hnot8, hnomime]
  · intro j u hji hju
    unfold thumb_events
    rw [List.getElem?_map, hju]
    rfl

theorem extract_thumbnails_unsupported_skip_witness :
    (thumb_events sampleGuessExt "duck.cr2" "out"
      [openraw.Bitmap.mk sampleCfaThumb, openraw.Bitmap.mk sampleJpegThumb,
        openraw.Bitmap.mk sampleRgbThumb])[0]?
      = some (ThumbEvent.diagnostic
          (cannot_extract_msg DataType.OR_DATA_TYPE_COMPRESSED_CFA "duck.cr2" 1936 1288)) := by
  have h := (extract_thumbnails_unsupported_skip sampleEngine sampleGuessExt "duck.cr2" "out"
    sampleHandle
    [openraw.Bitmap.mk sampleCfaThumb, openraw.Bitmap.mk sampleJpegThumb,
      openraw.Bitmap.mk sampleRgbThumb]
    0 (openraw.Bitmap.mk sampleCfaThumb) rfl rfl (by decide) (by decide) (by decide)).2.2.1
  rw [h]
  decide

/-- C6: a thumbnail of an already-compressed kind (JPEG, TIFF, PNG) is
written with its byte buffer verbatim and a filename suffix obtained by
the MIME-to-extension lookup applied to that data type's MIME type
(JPEG ↦ image/jpeg, TIFF ↦ image/tiff, PNG ↦ image/png), so the suffix
is chosen consistently per MIME type. -/
theorem extract_thumbnails_passthrough_verbatim (engine : OREngine)
    (guess_ext : String → Option String) (rawfile_path destination_path : String)
    (h : ORRawFileHandle) (ts : List openraw.Thumbnail) (i : Nat)
    (t : openraw.Thumbnail) (mime ext : String)
    (hopen : engine.newRawFile rawfile_path OrType.OR_RAWFILE_TYPE_UNKNOWN = some h)
    (hths : (openraw.RawFile.mk h).get_thumbnails = Except.ok ts)
    (hit : ts[i]? = some t)
    (hmime : DATATYPE_TO_MIMETYPE t.get_data_type = some mime)
    (hext : guess_ext mime = some ext) :
    DATATYPE_TO_MIMETYPE DataType.OR_DATA_TYPE_JPEG = some "image/jpeg"
    ∧ DATATYPE_TO_MIMETYPE DataType.OR_DATA_TYPE_TIFF = some "image/tiff"
    ∧ DATATYPE_TO_MIMETYPE DataType.OR_DATA_TYPE_PNG = some "image/png"
    ∧ extract_thumbnails engine guess_ext rawfile_path destination_path
        = Except.ok (thumb_events guess_ext rawfile_path destination_path ts)
    ∧ (thumb_events guess_ext rawfile_path destination_path ts)[i]?
        = some (ThumbEvent.written
            (path_join destination_path
              (splitext_root (basename rawfile_path) ++ "-" ++ toString t.get_width
                ++ "x" ++ toString t.get_height ++ ext))
            t.get_data) := by
  have hnot8 : t.get_data_type ≠ DataType.OR_DATA_TYPE_PIXMAP_8RGB := by
    intro hh
    rw [hh] at hmime
    simp [DATATYPE_TO_MIMETYPE] at hmime
  refine ⟨rfl, rfl, rfl,
    extract_thumbnails_run engine guess_ext rawfile_path destination_path h ts hopen hths, ?_⟩
  unfold thumb_events
  rw [List.getElem?_map, hit]
  simp [process_thumbnail, hnot8, hmime, hext, pyStr]

theorem extract_thumbnails_passthrough_verbatim_witness :
    (thumb_events sampleGuessExt "duck.cr2" "out"
      [openraw.Bitmap.mk sampleCfaThumb, openraw.Bitmap.mk sampleJpegThumb,
        openraw.Bitmap.mk sampleRgbThumb])[1]?
      = some (ThumbEvent.written "out/duck-160x120.jpg" "abcd") := by
  have h := (extract_thumbnails_passthrough_verbatim sampleEngine sampleGuessExt "duck.cr2" "out"
    sampleHandle
    [openraw.Bitmap.mk sampleCfaThumb, openraw.Bitmap.mk sampleJpegThumb,
      openraw.Bitmap.mk sampleRgbThumb]
    1 (openraw.Bitmap.mk sampleJpegThumb) "image/jpeg" ".jpg"
    rfl rfl (by decide) (by decide) (by decide)).2.2.2.2
  rw [h]
  decide

/-- C10: for a thumbnail whose data type has a MIME mapping but for
which the system MIME-to-extension lookup yields no extension, no
diagnostic is emitted and the thumbnail is not skipped: the extension
variable is the null value, and a file is still written whose name ends
with the literal four characters `None` in place of an extension. -/
theorem extract_thumbnails_missing_extension_writes_none (engine : OREngine)
    (guess_ext : String → Option String) (rawfile_path destination_path : String)
    (h : ORRawFileHandle) (ts : List openraw.Thumbnail) (i : Nat)
    (t : openraw.Thumbnail) (mime : String)
    (hopen : engine.newRawFile rawfile_path OrType.OR_RAWFILE_TYPE_UNKNOWN = some h)
    (hths : (openraw.RawFile.mk h).get_thumbnails = Except.ok ts)
    (hit : ts[i]? = some t)
    (hmime : DATATYPE_TO_MIMETYPE t.get_data_type = some mime)
    (hnone : guess_ext mime = none) :
    extract_thumbnails engine guess_ext rawfile_path destination_path
      = Except.ok (thumb_events guess_ext rawfile_path destination_path ts)
    ∧ (thumb_events guess_ext rawfile_path destination_path ts)[i]?
        = some (ThumbEvent.written
            (path_join destination_path
              ((splitext_root (basename rawfile_path) ++ "-" ++ toString t.get_width
                ++ "x" ++ toString t.get_height) ++ "None"))
            t.get_data)
    ∧ ∀ msg, (thumb_events guess_ext rawfile_path destination_path ts)[i]?
        ≠ some (ThumbEvent.diagnostic msg) := by
  have hnot8 : t.get_data_type ≠ DataType.OR_DATA_TYPE_PIXMAP_8RGB := by
    intro hh
    rw [hh] at hmime
    simp [DATATYPE_TO_MIMETYPE] at hmime
  refine ⟨extract_thumbnails_run engine guess_ext rawfile_path destination_path h ts hopen hths,
    ?_, ?_⟩
  · unfold thumb_events
    rw [List.getElem?_map, hit]
    simp [process_thumbnail, hnot8, hmime, hnone, pyStr]
  · intro msg
    unfold thumb_events
    rw [List.getElem?_map, hit]
    simp [process_thumbnail, hnot8, hmime, hnone, pyStr]

theorem extract_thumbnails_missing_extension_writes_none_witness :
    (thumb_events noGuessExt "duck.cr2" "out"
      [openraw.Bitmap.mk sampleCfaThumb, openraw.Bitmap.mk sampleJpegThumb,
        openraw.Bitmap.mk sampleRgbThumb])[1]?
      = some (ThumbEvent.written "out/duck-160x120None" "abcd") := by
  have h := (extract_thumbnails_missing_extension_writes_none sampleEngine noGuessExt
    "duck.cr2" "out" sampleHandle
    [openraw.Bitmap.mk sampleCfaThumb, openraw.Bitmap.mk sampleJpegThumb,
      openraw.Bitmap.mk sampleRgbThumb]
    1 (openraw.Bitmap.mk sampleJpegThumb) "image/jpeg"
    rfl rfl (by decide) (by decide) rfl).2.1
  rw [h]
  decide
